import Mathlib

/-!
Verification of the metric-delta and percentage-impact computations of the
llm-d plotting repository (src/blog.py and src/plot.py), embedded shallowly:
Python floats become rationals, dicts become association lists, and code that
can raise returns `Except`.
-/

deriving instance DecidableEq for Except

/-- Error kinds the analysis code can raise: Python's `ZeroDivisionError`
(raised by `gap / precise` when the reference value is zero, src/blog.py
lines 43-44 and 151-152) and `KeyError` on a missing metric name (the dict
lookups at lines 33-36 and 141-144), which the spec calls `MissingMetric`. -/
inductive DeltaError where
  | divisionByZero : DeltaError
  | missingMetric : String → DeltaError
deriving DecidableEq

/-- The per-dimension-level delta computation of src/blog.py
(`plot_single_metric` lines 38-44): `gap = precise - random` followed by
`pct = (gap / precise) * 100`.  Arguments follow the spec signature
`compute_delta(reference_value, treatment_value)`; per the spec's glossary the
reference/baseline is the deterministic (PRECISE) condition — it is the
denominator of the percentage — and the treatment is the RANDOM condition.
Python raises `ZeroDivisionError` exactly when the reference is zero. -/
def compute_delta (reference treatment : ℚ) : Except DeltaError (ℚ × ℚ) :=
  let gap := reference - treatment
  if reference = 0 then Except.error DeltaError.divisionByZero
  else Except.ok (gap, gap / reference * 100)

/-- Result record of the 2-by-2 cross-impact computation: the two per-level
delta results and `gap_increase` (the spec's `impact_amplification`). -/
structure CrossImpact where
  delta_a : ℚ × ℚ
  delta_b : ℚ × ℚ
  impact_amplification : ℚ
deriving DecidableEq

/-- The 2-by-2 computation of src/blog.py lines 39-47: both gaps first
(`wo_lora_gap`, `w_lora_gap`), then both percentages (dimension A = without
LoRA first, as in the Python evaluation order), then
`gap_increase = w_lora_gap - wo_lora_gap`. -/
def compute_cross_impact (ref_a treat_a ref_b treat_b : ℚ) :
    Except DeltaError CrossImpact :=
  let gap_a := ref_a - treat_a
  let gap_b := ref_b - treat_b
  if ref_a = 0 then Except.error DeltaError.divisionByZero
  else if ref_b = 0 then Except.error DeltaError.divisionByZero
  else Except.ok ⟨(gap_a, gap_a / ref_a * 100), (gap_b, gap_b / ref_b * 100),
    gap_b - gap_a⟩

/-- The same 2-by-2 computation with the two per-level deltas evaluated in
the opposite order (dimension B first); used to state that the two delta
computations inside `compute_cross_impact` have no ordering dependency. -/
def compute_cross_impact_b_first (ref_a treat_a ref_b treat_b : ℚ) :
    Except DeltaError CrossImpact :=
  let gap_b := ref_b - treat_b
  let gap_a := ref_a - treat_a
  if ref_b = 0 then Except.error DeltaError.divisionByZero
  else if ref_a = 0 then Except.error DeltaError.divisionByZero
  else Except.ok ⟨(gap_a, gap_a / ref_a * 100), (gap_b, gap_b / ref_b * 100),
    gap_b - gap_a⟩

/-- The five derived values of one metric's analysis in src/blog.py:
the two gaps, the two percentages, and `gap_increase`. -/
structure GapAnalysis where
  wo_lora_gap : ℚ
  w_lora_gap : ℚ
  wo_lora_pct : ℚ
  w_lora_pct : ℚ
  gap_increase : ℚ
deriving DecidableEq

/-- The delta logic of `plot_single_metric` (src/blog.py lines 38-47), on the
four metric values in the order the function receives its experiment
arguments: `wo_lora_gap = precise_wo - random_wo`,
`w_lora_gap = precise_w - random_w`, `wo_lora_pct = wo_lora_gap / precise_wo * 100`,
`w_lora_pct = w_lora_gap / precise_w * 100`,
`gap_increase = w_lora_gap - wo_lora_gap`; division raises when the
corresponding precise value is zero, without-LoRA first as in Python. -/
def single_metric_analysis (precise_w random_w precise_wo random_wo : ℚ) :
    Except DeltaError GapAnalysis :=
  let wo_lora_gap := precise_wo - random_wo
  let w_lora_gap := precise_w - random_w
  if precise_wo = 0 then Except.error DeltaError.divisionByZero
  else if precise_w = 0 then Except.error DeltaError.divisionByZero
  else Except.ok ⟨wo_lora_gap, w_lora_gap, wo_lora_gap / precise_wo * 100,
    w_lora_gap / precise_w * 100, w_lora_gap - wo_lora_gap⟩

/-- The delta logic duplicated inside the per-metric loop of
`plot_lora_impact` (src/blog.py lines 146-155), translated independently from
those lines: `wo_lora_gap = precise_wo - random_wo`,
`w_lora_gap = precise_w - random_w`, the two percentages dividing by the
precise values, and `gap_increase = w_lora_gap - wo_lora_gap`. -/
def lora_impact_metric_analysis (precise_w random_w precise_wo random_wo : ℚ) :
    Except DeltaError GapAnalysis :=
  let wo_lora_gap := precise_wo - random_wo
  let w_lora_gap := precise_w - random_w
  if precise_wo = 0 then Except.error DeltaError.divisionByZero
  else if precise_w = 0 then Except.error DeltaError.divisionByZero
  else Except.ok ⟨wo_lora_gap, w_lora_gap, wo_lora_gap / precise_wo * 100,
    w_lora_gap / precise_w * 100, w_lora_gap - wo_lora_gap⟩

/-- A MetricSet: the spec's mapping from metric name to numeric value
(the `data['successes']['throughput']` dicts of src/blog.py), as an
association list with Python-dict lookup semantics. -/
abbrev MetricSet := List (String × ℚ)

/-- Dict lookup with Python semantics: a missing key raises (`KeyError`,
the spec's `MissingMetric`). -/
def getMetric (s : MetricSet) (k : String) : Except DeltaError ℚ :=
  match s.lookup k with
  | some v => Except.ok v
  | none => Except.error (DeltaError.missingMetric k)

/-- Modelled from the spec: `aggregate_over_metrics(metric_names,
reference_set, treatment_set)` is absent from src/ as a callable; its
per-name body is the inline loop of `plot_lora_impact` (src/blog.py lines
137-152) specialized to one dimension level: for each requested name in
order, look the name up in the reference set and then the treatment set
(raising `MissingMetric` on the first absence), compute the delta pair, and
collect the results keyed by name. -/
def aggregate_over_metrics (names : List String) (ref trt : MetricSet) :
    Except DeltaError (List (String × ℚ × ℚ)) :=
  match names with
  | [] => Except.ok []
  | n :: rest =>
    match getMetric ref n with
    | Except.error e => Except.error e
    | Except.ok r =>
      match getMetric trt n with
      | Except.error e => Except.error e
      | Except.ok t =>
        match compute_delta r t with
        | Except.error e => Except.error e
        | Except.ok d =>
          match aggregate_over_metrics rest ref trt with
          | Except.error e => Except.error e
          | Except.ok tail => Except.ok ((n, d) :: tail)

/-- Errors the resource-usage plotting script (src/plot.py) can raise while
processing one CSV file: `KeyError` on the column selection `df["pod"]`
(line 33) and `AssertionError` from the two asserts at lines 37-38. -/
inductive PlotError where
  | keyError : String → PlotError
  | assertionFailed : PlotError
deriving DecidableEq

/-- A loaded CSV as pandas presents it: the column names in order and the
rows as lists of cell strings. -/
structure DataFrame where
  cols : List String
  rows : List (List String)
deriving DecidableEq

/-- What reaches the plotting calls for one CSV: the name of the third
(value) column and the rows that survived the pod filter. -/
structure PlotOutput where
  value_name : String
  rows : List (List String)
deriving DecidableEq

/-- Python's `str.startswith`: the candidate is a character-wise start of
the string. -/
def strStartsWith (s start : String) : Bool :=
  start.data.isPrefixOf s.data

/-- Position of a column name in the header, as pandas column selection
uses it: the first index whose name matches, none when absent. -/
def colIdx (cols : List String) (name : String) : Option Nat :=
  match cols with
  | [] => none
  | c :: rest => if c = name then some 0 else (colIdx rest name).map (· + 1)

/-- The per-CSV processing of src/plot.py lines 30-49: select the `pod`
column (KeyError if absent), keep only rows whose pod value starts with
`"ms"` (line 33), assert that the first two column names are `pod` and
`timestamp` (line 37) and that there are exactly three columns (line 38),
then hand the value-column name and the filtered rows to the plotting loop.
(The Python filters before asserting; both steps are pure, so the order
does not change the error raised or the rows that reach plotting.) -/
def process_csv (df : DataFrame) : Except PlotError PlotOutput :=
  match colIdx df.cols "pod" with
  | none => Except.error (PlotError.keyError "pod")
  | some i =>
    if df.cols.take 2 = ["pod", "timestamp"] then
      if df.cols.length = 3 then
        Except.ok ⟨df.cols.getD 2 "",
          df.rows.filter (fun row => strStartsWith (row.getD i "") "ms")⟩
      else Except.error PlotError.assertionFailed
    else Except.error PlotError.assertionFailed

/-- Filesystem error of `Path.mkdir()` (src/plot.py line 27): Python raises
`FileExistsError` when the target directory already exists. -/
inductive FsError where
  | fileExistsError : FsError
deriving DecidableEq

/-- Observable filesystem actions of a run of src/plot.py: reading one CSV
(`pd.read_csv`, line 30) and saving one chart image (`plt.savefig`,
line 67). -/
inductive RunEvent where
  | readCsv : String → RunEvent
  | savePng : String → RunEvent
deriving DecidableEq

/-- The hard-coded CSV file names of src/plot.py lines 16-22. -/
def CSV_NAMES : List String :=
  ["cpu_cores.csv", "fs_gib.csv", "memory_gib.csv", "net_in_mib.csv",
   "net_out_mib.csv"]

/-- The output directory src/plot.py creates at line 27. -/
def plots_dir : String := "benchmarking_data/plots"

/-- The `__main__` block of src/plot.py over a filesystem modelled as the
set of existing directory paths, with the CSV inputs assumed readable:
`plots_dir.mkdir()` runs first and raises `FileExistsError` when the
directory already exists, before any CSV is read; otherwise the loop reads
each CSV and saves `<name without .csv>.png` into the new directory.  The
result pairs the filesystem actions actually performed with the error, if
any, that ended the run. -/
def run_plot_script (fs : List String) : List RunEvent × Option FsError :=
  if plots_dir ∈ fs then ([], some FsError.fileExistsError)
  else
    (CSV_NAMES.flatMap
      (fun n => [RunEvent.readCsv n, RunEvent.savePng (n.dropRight 4 ++ ".png")]),
     none)

/-- C1, counterexample: the source computes the gap as reference minus
treatment (`precise - random`, src/blog.py line 39), so
`compute_delta(100, 85)` yields `(+15, +15%)` and not the `(-15, -15%)`
the claim states. -/
theorem compute_delta_sign_counterexample :
    compute_delta 100 85 = Except.ok (15, 15) ∧
    compute_delta 100 85 ≠ Except.ok (-15, -15) := by
  constructor <;> norm_num [compute_delta]

/-- C1 (amended): for every non-zero reference `r` and every treatment `t`,
`compute_delta(r, t)` returns `absolute_delta = r - t` and
`percentage_delta = (r - t) / r * 100` — the source's gap is reference minus
treatment, not treatment minus reference; in particular
`compute_delta(100, 85)` yields `(15, +15%)` and `compute_delta(160, 80)`
yields `(80, +50%)`. -/
theorem compute_delta_reference_minus_treatment :
    (∀ r t : ℚ, r ≠ 0 →
      compute_delta r t = Except.ok (r - t, (r - t) / r * 100)) ∧
    compute_delta 100 85 = Except.ok (15, 15) ∧
    compute_delta 160 80 = Except.ok (80, 50) := by
  refine ⟨fun r t hr => ?_, by norm_num [compute_delta], by norm_num [compute_delta]⟩
  simp [compute_delta, hr]

/-- Witness for C1's amended theorem at the concrete input (7, 3). -/
theorem compute_delta_reference_minus_treatment_witness :
    compute_delta 7 3 = Except.ok (7 - 3, (7 - 3) / 7 * 100) :=
  compute_delta_reference_minus_treatment.1 7 3 (by norm_num)

/-- C2: `compute_delta` fails with `DivisionByZero` exactly when the
reference value is zero; in particular `compute_delta(0, 5)` raises rather
than returning an unbounded value, and every non-zero reference yields an
ordinary result. -/
theorem compute_delta_division_by_zero_iff :
    (∀ r t : ℚ,
      compute_delta r t = Except.error DeltaError.divisionByZero ↔ r = 0) ∧
    compute_delta 0 5 = Except.error DeltaError.divisionByZero ∧
    (∀ r t : ℚ, r ≠ 0 → ∃ p, compute_delta r t = Except.ok p) := by
  refine ⟨fun r t => ?_, by norm_num [compute_delta],
    fun r t hr => ⟨(r - t, (r - t) / r * 100), by simp [compute_delta, hr]⟩⟩
  by_cases hr : r = 0 <;> simp [compute_delta, hr]

/-- Witness for C2's theorem at the concrete inputs (0, 9) and (4, 6). -/
theorem compute_delta_division_by_zero_iff_witness :
    compute_delta 0 9 = Except.error DeltaError.divisionByZero ∧
    (∃ p, compute_delta 4 6 = Except.ok p) :=
  ⟨(compute_delta_division_by_zero_iff.1 0 9).mpr rfl,
    compute_delta_division_by_zero_iff.2.2 4 6 (by norm_num)⟩

/-- C3: for non-zero references, `compute_cross_impact` returns the two
`compute_delta` results for the two dimension levels together with
`impact_amplification` equal to the difference of their absolute deltas
(dimension B minus dimension A); in particular absolute deltas of -15
(dimension A) and -80 (dimension B) give `impact_amplification = -65`. -/
theorem compute_cross_impact_composes :
    (∀ ra ta rb tb : ℚ, ra ≠ 0 → rb ≠ 0 →
      ∃ da db, compute_delta ra ta = Except.ok da ∧
        compute_delta rb tb = Except.ok db ∧
        compute_cross_impact ra ta rb tb = Except.ok ⟨da, db, db.1 - da.1⟩) ∧
    (∃ res, compute_cross_impact 85 100 80 160 = Except.ok res ∧
      res.delta_a.1 = -15 ∧ res.delta_b.1 = -80 ∧
      res.impact_amplification = -65) := by
  constructor
  · intro ra ta rb tb ha hb
    exact ⟨(ra - ta, (ra - ta) / ra * 100), (rb - tb, (rb - tb) / rb * 100),
      by simp [compute_delta, ha], by simp [compute_delta, hb],
      by simp [compute_cross_impact, ha, hb]⟩
  · exact ⟨⟨(-15, -300 / 17), (-80, -100), -65⟩,
      by norm_num [compute_cross_impact], by norm_num, by norm_num, by norm_num⟩

/-- Witness for C3's theorem at the concrete input (2, 3, 5, 7). -/
theorem compute_cross_impact_composes_witness :
    ∃ da db, compute_delta 2 3 = Except.ok da ∧
      compute_delta 5 7 = Except.ok db ∧
      compute_cross_impact 2 3 5 7 = Except.ok ⟨da, db, db.1 - da.1⟩ :=
  compute_cross_impact_composes.1 2 3 5 7 (by norm_num) (by norm_num)

/-- C5: in every delta computation the program performs — `compute_delta`
itself, and the two duplicated sites in `plot_single_metric` and
`plot_lora_impact` — the percentage delta is the absolute gap divided by the
reference (precise/baseline) value, times 100. -/
theorem percentage_relative_to_reference :
    (∀ r t : ℚ, r ≠ 0 → ∃ d, compute_delta r t = Except.ok d ∧
      d.2 = d.1 / r * 100) ∧
    (∀ pw rw pwo rwo : ℚ, pwo ≠ 0 → pw ≠ 0 →
      ∃ g, single_metric_analysis pw rw pwo rwo = Except.ok g ∧
        g.wo_lora_pct = g.wo_lora_gap / pwo * 100 ∧
        g.w_lora_pct = g.w_lora_gap / pw * 100) ∧
    (∀ pw rw pwo rwo : ℚ, pwo ≠ 0 → pw ≠ 0 →
      ∃ g, lora_impact_metric_analysis pw rw pwo rwo = Except.ok g ∧
        g.wo_lora_pct = g.wo_lora_gap / pwo * 100 ∧
        g.w_lora_pct = g.w_lora_gap / pw * 100) := by
  refine ⟨fun r t hr => ⟨(r - t, (r - t) / r * 100), by simp [compute_delta, hr], rfl⟩,
    fun pw rw pwo rwo h1 h2 => ⟨⟨pwo - rwo, pw - rw, (pwo - rwo) / pwo * 100,
      (pw - rw) / pw * 100, (pw - rw) - (pwo - rwo)⟩,
      by simp [single_metric_analysis, h1, h2], rfl, rfl⟩,
    fun pw rw pwo rwo h1 h2 => ⟨⟨pwo - rwo, pw - rw, (pwo - rwo) / pwo * 100,
      (pw - rw) / pw * 100, (pw - rw) - (pwo - rwo)⟩,
      by simp [lora_impact_metric_analysis, h1, h2], rfl, rfl⟩⟩

/-- Witness for C5's theorem at the concrete input (4, 9). -/
theorem percentage_relative_to_reference_witness :
    ∃ d, compute_delta 4 9 = Except.ok d ∧ d.2 = d.1 / 4 * 100 :=
  percentage_relative_to_reference.1 4 9 (by norm_num)

/-- C6, counterexample: swapping the reference and treatment roles of all
four inputs negates the absolute deltas and the amplification, but the
percentage deltas are rescaled to the new reference, not negated: the
swapped call on (100, 85, 160, 80) yields a dimension A percentage of
-300/17 (about -17.65), which is not the negation -15 of the original
+15. -/
theorem cross_impact_swap_counterexample :
    compute_cross_impact 100 85 160 80 = Except.ok ⟨(15, 15), (80, 50), 65⟩ ∧
    compute_cross_impact 85 100 80 160 =
      Except.ok ⟨(-15, -300 / 17), (-80, -100), -65⟩ ∧
    (-300 / 17 : ℚ) ≠ -15 := by
  refine ⟨by norm_num [compute_cross_impact],
    by norm_num [compute_cross_impact], by norm_num⟩

/-- C6 (amended): for every input quadruple with non-zero values, swapping
the reference and treatment roles of all four inputs negates the two
absolute deltas and the `impact_amplification` exactly; the percentage
deltas are recomputed against the new reference values and are not in
general the negations of the originals. -/
theorem cross_impact_swap_negates_absolute :
    ∀ ra ta rb tb : ℚ, ra ≠ 0 → ta ≠ 0 → rb ≠ 0 → tb ≠ 0 →
      ∃ o s, compute_cross_impact ra ta rb tb = Except.ok o ∧
        compute_cross_impact ta ra tb rb = Except.ok s ∧
        s.delta_a.1 = -o.delta_a.1 ∧ s.delta_b.1 = -o.delta_b.1 ∧
        s.impact_amplification = -o.impact_amplification := by
  intro ra ta rb tb h1 h2 h3 h4
  refine ⟨⟨(ra - ta, (ra - ta) / ra * 100), (rb - tb, (rb - tb) / rb * 100),
      (rb - tb) - (ra - ta)⟩,
    ⟨(ta - ra, (ta - ra) / ta * 100), (tb - rb, (tb - rb) / tb * 100),
      (tb - rb) - (ta - ra)⟩,
    by simp [compute_cross_impact, h1, h3],
    by simp [compute_cross_impact, h2, h4], ?_, ?_, ?_⟩
  · show ta - ra = -(ra - ta)
    ring
  · show tb - rb = -(rb - tb)
    ring
  · show (tb - rb) - (ta - ra) = -((rb - tb) - (ra - ta))
    ring

/-- Witness for C6's amended theorem at the concrete input (100, 85, 160, 80). -/
theorem cross_impact_swap_negates_absolute_witness :
    ∃ o s, compute_cross_impact 100 85 160 80 = Except.ok o ∧
      compute_cross_impact 85 100 80 160 = Except.ok s ∧
      s.delta_a.1 = -o.delta_a.1 ∧ s.delta_b.1 = -o.delta_b.1 ∧
      s.impact_amplification = -o.impact_amplification :=
  cross_impact_swap_negates_absolute 100 85 160 80 (by norm_num) (by norm_num)
    (by norm_num) (by norm_num)

/-- C8: the delta computations are deterministic pure functions of their
arguments — equal inputs give equal outputs, and the two per-dimension delta
computations inside `compute_cross_impact` can be evaluated in either order
with the same result (the embedding is a pure function, mirroring the
source's use of only local variables). -/
theorem delta_computations_pure :
    (∀ r t r2 t2 : ℚ, r = r2 → t = t2 →
      compute_delta r t = compute_delta r2 t2) ∧
    (∀ ra ta rb tb : ℚ,
      compute_cross_impact ra ta rb tb = compute_cross_impact_b_first ra ta rb tb) ∧
    (∀ ra ta rb tb ra2 ta2 rb2 tb2 : ℚ,
      ra = ra2 → ta = ta2 → rb = rb2 → tb = tb2 →
      compute_cross_impact ra ta rb tb = compute_cross_impact ra2 ta2 rb2 tb2) := by
  refine ⟨fun r t r2 t2 hr ht => by rw [hr, ht], fun ra ta rb tb => ?_,
    fun ra ta rb tb ra2 ta2 rb2 tb2 h1 h2 h3 h4 => by rw [h1, h2, h3, h4]⟩
  unfold compute_cross_impact compute_cross_impact_b_first
  by_cases ha : ra = 0 <;> by_cases hb : rb = 0 <;> simp [ha, hb]

/-- Witness for C8's theorem at concrete inputs. -/
theorem delta_computations_pure_witness :
    compute_delta 4 6 = compute_delta 4 6 ∧
    compute_cross_impact 1 2 3 4 = compute_cross_impact_b_first 1 2 3 4 :=
  ⟨delta_computations_pure.1 4 6 4 6 rfl rfl, delta_computations_pure.2.1 1 2 3 4⟩

/-- C9: the two in-source duplicates of the delta logic — the one in
`plot_single_metric` and the one in the `plot_lora_impact` loop — agree on
every input, and on non-zero precise values both produce the gaps (precise
minus random per LoRA level), the percentages (gap over the precise value,
times 100) and the `gap_increase` value. -/
theorem duplicate_delta_logic_agree :
    (∀ pw rw pwo rwo : ℚ,
      single_metric_analysis pw rw pwo rwo =
        lora_impact_metric_analysis pw rw pwo rwo) ∧
    (∀ pw rw pwo rwo : ℚ, pwo ≠ 0 → pw ≠ 0 →
      single_metric_analysis pw rw pwo rwo =
        Except.ok ⟨pwo - rwo, pw - rw, (pwo - rwo) / pwo * 100,
          (pw - rw) / pw * 100, (pw - rw) - (pwo - rwo)⟩ ∧
      lora_impact_metric_analysis pw rw pwo rwo =
        Except.ok ⟨pwo - rwo, pw - rw, (pwo - rwo) / pwo * 100,
          (pw - rw) / pw * 100, (pw - rw) - (pwo - rwo)⟩) := by
  refine ⟨fun _ _ _ _ => rfl, fun pw rw pwo rwo h1 h2 => ⟨?_, ?_⟩⟩
  · simp [single_metric_analysis, h1, h2]
  · simp [lora_impact_metric_analysis, h1, h2]

/-- Witness for C9's theorem at the concrete input (100, 85, 160, 80). -/
theorem duplicate_delta_logic_agree_witness :
    single_metric_analysis 100 85 160 80 =
      Except.ok ⟨160 - 80, 100 - 85, (160 - 80) / 160 * 100,
        (100 - 85) / 100 * 100, (100 - 85) - (160 - 80)⟩ ∧
    lora_impact_metric_analysis 100 85 160 80 =
      Except.ok ⟨160 - 80, 100 - 85, (160 - 80) / 160 * 100,
        (100 - 85) / 100 * 100, (100 - 85) - (160 - 80)⟩ :=
  duplicate_delta_logic_agree.2 100 85 160 80 (by norm_num) (by norm_num)

/-- C10: when the output directory `benchmarking_data/plots` already exists,
the run fails with `FileExistsError` having read no CSV file and written no
chart image; a run that does not fail started from a filesystem without
that directory. -/
theorem plot_script_requires_fresh_dir :
    (∀ fs : List String, plots_dir ∈ fs →
      run_plot_script fs = ([], some FsError.fileExistsError)) ∧
    (∀ fs : List String, (run_plot_script fs).2 = none → plots_dir ∉ fs) := by
  constructor
  · intro fs h
    simp [run_plot_script, h]
  · intro fs h hmem
    simp [run_plot_script, hmem] at h

/-- Witness for C10's theorem on a filesystem already holding the plots
directory. -/
theorem plot_script_requires_fresh_dir_witness :
    run_plot_script ["benchmarking_data", "benchmarking_data/plots"] =
      ([], some FsError.fileExistsError) :=
  plot_script_requires_fresh_dir.1 _ (by simp [plots_dir])

/-- C4, counterexample: with the one requested name present in both sets
but carrying a zero reference value, `aggregate_over_metrics` raises
`DivisionByZero` instead of returning the mapping, so presence of every
name in both sets alone does not guarantee a result. -/
theorem aggregate_zero_reference_counterexample :
    List.lookup "m" [("m", (0 : ℚ))] = some 0 ∧
    List.lookup "m" [("m", (5 : ℚ))] = some 5 ∧
    aggregate_over_metrics ["m"] [("m", 0)] [("m", 5)] =
      Except.error DeltaError.divisionByZero := by
  refine ⟨by norm_num [List.lookup], by norm_num [List.lookup], ?_⟩
  norm_num [aggregate_over_metrics, getMetric, compute_delta, List.lookup]

/-- C4 (amended): when every requested name is present in both sets and
each name's reference value is non-zero, `aggregate_over_metrics` returns a
mapping whose keys are exactly the requested names in order (hence of the
same cardinality as the input sequence); and on the first requested name
absent from either set — all earlier names being present with non-zero
reference values — it fails with `MissingMetric` for that name, regardless
of the names that follow (no further comparisons). -/
theorem aggregate_over_metrics_keys_and_fail_fast :
    (∀ (names : List String) (ref trt : MetricSet),
      (∀ n ∈ names, ∃ r, List.lookup n ref = some r ∧ r ≠ 0 ∧
        ∃ t, List.lookup n trt = some t) →
      ∃ out, aggregate_over_metrics names ref trt = Except.ok out ∧
        out.map Prod.fst = names) ∧
    (∀ (pre : List String) (n : String) (post : List String)
        (ref trt : MetricSet),
      (∀ m ∈ pre, ∃ r, List.lookup m ref = some r ∧ r ≠ 0 ∧
        ∃ t, List.lookup m trt = some t) →
      (List.lookup n ref = none ∨ List.lookup n trt = none) →
      aggregate_over_metrics (pre ++ n :: post) ref trt =
        Except.error (DeltaError.missingMetric n)) := by
  constructor
  · intro names ref trt h
    induction names with
    | nil => exact ⟨[], rfl, rfl⟩
    | cons m rest ih =>
      obtain ⟨r, hr, hrne, t, ht⟩ := h m (List.mem_cons_self m rest)
      obtain ⟨out, hout, hmap⟩ := ih fun x hx => h x (List.mem_cons_of_mem m hx)
      refine ⟨(m, (r - t, (r - t) / r * 100)) :: out, ?_, by simp [hmap]⟩
      simp [aggregate_over_metrics, getMetric, hr, ht, compute_delta, hrne, hout]
  · intro pre n post ref trt hpre hn
    induction pre with
    | nil =>
      rcases hn with h | h
      · simp [aggregate_over_metrics, getMetric, h]
      · cases href : List.lookup n ref with
        | none => simp [aggregate_over_metrics, getMetric, href]
        | some r => simp [aggregate_over_metrics, getMetric, href, h]
    | cons m rest ih =>
      obtain ⟨r, hr, hrne, t, ht⟩ := hpre m (List.mem_cons_self m rest)
      have htail := ih fun x hx => hpre x (List.mem_cons_of_mem m hx)
      simp only [List.cons_append]
      simp [aggregate_over_metrics, getMetric, hr, ht, compute_delta, hrne, htail]

/-- Witness for C4's amended theorem: the success part on one present,
non-zero name and the fail-fast part on a name absent from the treatment
set. -/
theorem aggregate_over_metrics_keys_and_fail_fast_witness :
    (∃ out, aggregate_over_metrics ["a"] [("a", 2)] [("a", 3)] = Except.ok out ∧
      out.map Prod.fst = ["a"]) ∧
    aggregate_over_metrics ["a", "b", "c"] [("a", 2), ("b", 4)] [("a", 3)] =
      Except.error (DeltaError.missingMetric "b") :=
  ⟨aggregate_over_metrics_keys_and_fail_fast.1 ["a"] [("a", 2)] [("a", 3)]
      (by
        intro n hn
        simp only [List.mem_singleton] at hn
        subst hn
        exact ⟨2, by norm_num [List.lookup], by norm_num, 3, by norm_num [List.lookup]⟩),
    aggregate_over_metrics_keys_and_fail_fast.2 ["a"] "b" ["c"]
      [("a", 2), ("b", 4)] [("a", 3)]
      (by
        intro n hn
        simp only [List.mem_singleton] at hn
        subst hn
        exact ⟨2, by norm_num [List.lookup], by norm_num, 3, by norm_num [List.lookup]⟩)
      (Or.inr (by decide))⟩

/-- Helper: a list whose first two elements are known is a cons-cons. -/
theorem take_two_structure (l : List String) (a b : String)
    (h : l.take 2 = [a, b]) : ∃ rest, l = a :: b :: rest := by
  match l with
  | [] => simp at h
  | [x] => simp at h
  | x :: y :: rest =>
    simp only [List.take_succ_cons, List.take_zero] at h
    obtain ⟨rfl, rfl⟩ : x = a ∧ y = b := by
      have h1 := congrArg (fun s => s.getD 0 "") h
      have h2 := congrArg (fun s => s.getD 1 "") h
      simp at h1 h2
      exact ⟨h1, h2⟩
    exact ⟨rest, rfl⟩

/-- C7: per CSV file, the plotting branch is reached exactly when the frame
has three columns whose first two are `pod` and `timestamp` (the asserts
abort every other shape, and a frame with no `pod` column aborts at the
column selection), and the rows handed to plotting are exactly the rows
whose pod value (the first cell) starts with `"ms"`. -/
theorem process_csv_guard :
    ∀ df : DataFrame,
      ((∃ out, process_csv df = Except.ok out) ↔
        df.cols.take 2 = ["pod", "timestamp"] ∧ df.cols.length = 3) ∧
      (∀ out, process_csv df = Except.ok out →
        out.rows = df.rows.filter
          (fun row => strStartsWith (row.getD 0 "") "ms")) := by
  intro df
  obtain ⟨cols, rows⟩ := df
  constructor
  · constructor
    · rintro ⟨out, hout⟩
      unfold process_csv at hout
      split at hout
      · exact absurd hout (by simp)
      · split at hout
        · split at hout
          · next h2 h3 => exact ⟨h2, h3⟩
          · exact absurd hout (by simp)
        · exact absurd hout (by simp)
    · rintro ⟨h2, h3⟩
      simp only at h2 h3
      obtain ⟨rest, rfl⟩ := take_two_structure _ _ _ h2
      simp only [List.length_cons] at h3
      have hlen : rest.length = 1 := by omega
      obtain ⟨v, rfl⟩ := List.length_eq_one.mp hlen
      exact ⟨⟨v, rows.filter (fun row => strStartsWith (row.getD 0 "") "ms")⟩, rfl⟩
  · intro out hout
    unfold process_csv at hout
    split at hout
    · exact absurd hout (by simp)
    · next i heq =>
      split at hout
      · next h2 =>
        split at hout
        · simp only at h2
          obtain ⟨rest, hcols⟩ := take_two_structure _ _ _ h2
          subst hcols
          simp [colIdx] at heq
          subst heq
          rw [Except.ok.injEq] at hout
          subst hout
          rfl
        · exact absurd hout (by simp)
      · exact absurd hout (by simp)

/-- Witness for C7's theorem on a concrete well-formed frame with one
matching and one non-matching row. -/
theorem process_csv_guard_witness :
    (∃ out, process_csv ⟨["pod", "timestamp", "cpu_cores"],
      [["ms-1", "0", "1"], ["x", "0", "2"]]⟩ = Except.ok out) ∧
    (⟨"cpu_cores", [["ms-1", "0", "1"]]⟩ : PlotOutput).rows =
      [["ms-1", "0", "1"], ["x", "0", "2"]].filter
        (fun row => strStartsWith (row.getD 0 "") "ms") :=
  ⟨(process_csv_guard ⟨["pod", "timestamp", "cpu_cores"],
      [["ms-1", "0", "1"], ["x", "0", "2"]]⟩).1.mpr ⟨by decide, by decide⟩,
    (process_csv_guard ⟨["pod", "timestamp", "cpu_cores"],
      [["ms-1", "0", "1"], ["x", "0", "2"]]⟩).2
      ⟨"cpu_cores", [["ms-1", "0", "1"]]⟩ (by decide)⟩
